import Mathlib

/-!
Shallow embedding of the IMU-skeleton viewer core
(`src/components/skeleton-viewer.tsx`, `src/lib/skeleton-constants.ts`,
`src/app/page.tsx`).

JavaScript numbers are modelled as rationals (ℚ); frame counters are
naturals, except where JavaScript can produce `NaN` (the `%` operator with a
zero right operand), which is modelled as `none : Option ℕ`.
-/

namespace SkeletonViewer

/-- A 3D vector, modelling `THREE.Vector3` / `[x, y, z]` triples. -/
structure Vec3 where
  x : ℚ
  y : ℚ
  z : ℚ
deriving DecidableEq, Repr

/-- `const SCALE_FACTOR = 0.01` in `skeleton-viewer.tsx`. -/
def SCALE_FACTOR : ℚ := 1 / 100

/-! ## Playback clock (`tick` effect, skeleton-viewer.tsx lines 167-215) -/

/-- `const maxFrameSkip = isSafari ? 3 : 5`. -/
def maxFrameSkipOf (isSafari : Bool) : ℕ := if isSafari then 3 else 5

/-- `const fps = targetFps > 0 ? targetFps : (data.frameRate || 60)`. -/
def effectiveFps (targetFps frameRate : ℚ) : ℚ :=
  if 0 < targetFps then targetFps else (if frameRate = 0 then 60 else frameRate)

/-- `const intervalMs = 1000 / fps`. -/
def intervalMsOf (targetFps frameRate : ℚ) : ℚ :=
  1000 / effectiveFps targetFps frameRate

/-- `currentFrameRef.current = (currentFrameRef.current + 1) % data.numFrames`.
JavaScript `%` with right operand `0` yields `NaN`, modelled as `none`;
`NaN` is absorbing through further arithmetic. -/
def jsSuccMod (cur : Option ℕ) (F : ℕ) : Option ℕ :=
  match cur with
  | none => none
  | some a => if F = 0 then none else some ((a + 1) % F)

/-- Mutable state owned by the animation effect: `lastTime`, `accumulator`,
and `currentFrameRef.current`. -/
structure ClockState where
  lastTime : ℚ
  accumulator : ℚ
  currentFrame : Option ℕ
deriving DecidableEq, Repr

/-- The inputs the tick closure reads: props and refs, plus the constants
computed when the effect ran. -/
structure ClockConfig where
  isPlaying : Bool
  isSeeking : Bool
  isDragging : Bool
  intervalMs : ℚ
  maxSkip : ℕ
  numFrames : ℕ
deriving DecidableEq, Repr

/-- The body of
`while (accumulator >= intervalMs && framesToUpdate < maxFrameSkip)`:
given the remaining step budget (`maxSkip` minus steps already taken),
repeatedly subtract the interval and advance the frame. Returns the final
accumulator, the final frame, and `framesToUpdate`. -/
def advanceLoop (intervalMs : ℚ) (F : ℕ) :
    ℚ → Option ℕ → ℕ → ℚ × Option ℕ × ℕ
  | acc, frame, 0 => (acc, frame, 0)
  | acc, frame, budget + 1 =>
    if intervalMs ≤ acc then
      let r := advanceLoop intervalMs F (acc - intervalMs) (jsSuccMod frame F) budget
      (r.1, r.2.1, r.2.2 + 1)
    else
      (acc, frame, 0)

/-- One invocation of `tick(time)`, returning the new state and the number of
frame-advances performed (`framesToUpdate`). When `!isPlaying`, `isSeeking`
or `isDragging`, the tick only refreshes `lastTime` and returns. -/
def tickRun (cfg : ClockConfig) (s : ClockState) (time : ℚ) : ClockState × ℕ :=
  if ¬cfg.isPlaying ∨ cfg.isSeeking ∨ cfg.isDragging then
    ({ s with lastTime := time }, 0)
  else
    let delta := time - s.lastTime
    let acc := s.accumulator + delta
    let r := advanceLoop cfg.intervalMs cfg.numFrames acc s.currentFrame cfg.maxSkip
    (⟨time, r.1, r.2.1⟩, r.2.2)

/-- `tick` viewed as a state transformer. -/
def tick (cfg : ClockConfig) (s : ClockState) (time : ℚ) : ClockState :=
  (tickRun cfg s time).1

/-- The seek effect (skeleton-viewer.tsx lines 222-235):
`Math.max(0, Math.min(seekFrame, data?.numFrames ? data.numFrames - 1 : 0))`. -/
def seekClamp (seekFrame : ℤ) (F : ℕ) : ℕ :=
  (max 0 (min seekFrame (if F = 0 then 0 else (F : ℤ) - 1))).toNat

/-- External events that mutate `currentFrameRef`: a clock tick or a seek. -/
inductive ClockEvent where
  | tickAt (time : ℚ)
  | seek (seekFrame : ℤ)
deriving DecidableEq, Repr

/-- Apply one event to the clock state. -/
def applyEvent (cfg : ClockConfig) (s : ClockState) : ClockEvent → ClockState
  | .tickAt t => tick cfg s t
  | .seek sf => { s with currentFrame := some (seekClamp sf cfg.numFrames) }

/-- The frame counter is a genuine integer (not `NaN`) in range `[0, F)`. -/
def frameInv (F : ℕ) (s : ClockState) : Prop :=
  ∃ a, s.currentFrame = some a ∧ a < F

instance (F : ℕ) (s : ClockState) : Decidable (frameInv F s) := by
  unfold frameInv
  cases h : s.currentFrame with
  | none => exact .isFalse (by simp)
  | some a => exact decidable_of_iff (a < F) (by simp)

/-! ## Pose resolver and drag calibration
(`getBasePositionForJoint`, `updateSkeleton`, `handleTransformChange`) -/

/-- `getBasePositionForJoint(jointIndex, frameIndex)`: looks up
`data.frames[frameIndex][jointIndex]` and scales it; a failed lookup
yields the zero vector. -/
def getBasePositionForJoint (frames : List (List Vec3)) (jointIndex frameIndex : ℕ) :
    Vec3 :=
  match (frames.get? frameIndex).bind (fun f => f.get? jointIndex) with
  | none => ⟨0, 0, 0⟩
  | some p => ⟨p.x * SCALE_FACTOR, p.y * SCALE_FACTOR, p.z * SCALE_FACTOR⟩

/-- The position computation of `updateSkeleton` for one joint:
`pos.set(p * SCALE_FACTOR)` then, when a calibration entry with a
`positionOffset` exists, `pos += positionOffset * SCALE_FACTOR`. -/
def resolvePosition (p : Vec3) (positionOffset : Option Vec3) : Vec3 :=
  let pos : Vec3 := ⟨p.x * SCALE_FACTOR, p.y * SCALE_FACTOR, p.z * SCALE_FACTOR⟩
  match positionOffset with
  | none => pos
  | some off =>
    ⟨pos.x + off.x * SCALE_FACTOR, pos.y + off.y * SCALE_FACTOR,
     pos.z + off.z * SCALE_FACTOR⟩

/-- `handleTransformChange`: the offset reported while dragging, computed from
the dragged mesh position `obj.position` and the uncalibrated base position:
`d = (obj.position - base) / SCALE_FACTOR` componentwise. -/
def handleTransformChange (frames : List (List Vec3)) (jointIdx currentFrame : ℕ)
    (objPosition : Vec3) : Vec3 :=
  let base := getBasePositionForJoint frames jointIdx currentFrame
  ⟨(objPosition.x - base.x) / SCALE_FACTOR,
   (objPosition.y - base.y) / SCALE_FACTOR,
   (objPosition.z - base.z) / SCALE_FACTOR⟩

/-! ## Calibration JSON import (`page.tsx`, import onChange handler) -/

/-- A parsed JSON value. `numNonFinite` stands for the non-finite
JavaScript numbers (`NaN`, `±Infinity`) that `Number.isFinite` rejects. -/
inductive Json where
  | null
  | bool (b : Bool)
  | num (q : ℚ)
  | numNonFinite
  | str (s : String)
  | arr (elems : List Json)
  | obj (fields : List (String × Json))
deriving Repr

/-- JavaScript property read on an object literal: the last assignment to a
key wins. -/
def jsGet {α : Type} (fields : List (String × α)) (key : String) : Option α :=
  ((fields.filter (fun p => p.1 = key)).getLast?).map (fun p => p.2)

/-- JavaScript property write `m[key] = v`: replaces an existing key in
place, otherwise appends (insertion order preserved). -/
def jsSet {α : Type} (fields : List (String × α)) (key : String) (v : α) :
    List (String × α) :=
  if fields.any (fun p => p.1 = key) then
    fields.map (fun p => if p.1 = key then (key, v) else p)
  else
    fields ++ [(key, v)]

/-- The `positionOffset` validation:
`Array.isArray(off) && off.length === 3 && off.every(v => typeof v === 'number' && Number.isFinite(v))`. -/
def validOffset : Json → Option Vec3
  | .arr [.num a, .num b, .num c] => some ⟨a, b, c⟩
  | _ => none

/-- Per-entry processing inside the import loop: the entry must pass
`!entry || typeof entry !== 'object'` (non-null object; a JavaScript array
also passes but has no `positionOffset` property), and then its
`positionOffset` must validate. -/
def entryOffset : Json → Option Vec3
  | .obj fields =>
    match jsGet fields "positionOffset" with
    | some off => validOffset off
    | none => none
  | _ => none

/-- The loop `for (const key of Object.keys(raw)) { ... next[key] = ... }`
over the fields of the parsed object. -/
def importEntries (fields : List (String × Json)) : List (String × Vec3) :=
  fields.foldl
    (fun next p =>
      match entryOffset p.2 with
      | some off => jsSet next p.1 off
      | none => next)
    []

/-- The whole import handler after `JSON.parse`: a non-object (or `null`)
top level throws `Invalid calibration format`, which the surrounding
`try`/`catch` swallows leaving the calibration unchanged — modelled as
`none`. A JavaScript array passes the `typeof` guard; its `Object.keys` are
the element indices. -/
def importCalibration : Json → Option (List (String × Vec3))
  | .obj fields => some (importEntries fields)
  | .arr elems => some (importEntries (elems.enum.map (fun p => (toString p.1, p.2))))
  | _ => none

/-! ## One-time camera framing (`updateSkeleton`, lines 289-309, and the
skeleton-creation effect, lines 856-859) -/

/-- Camera position and orbit-controls target. -/
structure CameraState where
  position : Vec3
  target : Vec3
deriving DecidableEq, Repr

/-- The per-scene render state relevant to framing: the
`scene['__hasAutoCentered']` flag and the camera. -/
structure RenderState where
  hasAutoCentered : Bool
  camera : CameraState
deriving DecidableEq, Repr

/-- Componentwise minimum (`THREE.Box3.expandByPoint`, min side). -/
def vmin (a b : Vec3) : Vec3 := ⟨min a.x b.x, min a.y b.y, min a.z b.z⟩

/-- Componentwise maximum (`THREE.Box3.expandByPoint`, max side). -/
def vmax (a b : Vec3) : Vec3 := ⟨max a.x b.x, max a.y b.y, max a.z b.z⟩

/-- The framing block: bounding box of `jointPositions`, its center and
size, `maxDim`, the fitted distance
`(maxDim * SCALE_FACTOR) / (2 * Math.tan(fov/2)) * 1.8`, camera placed at
`center + distance * (0.8, 0.6, 0.8)` and the orbit target at the center.
`tanHalfFov` stands for the host-computed `Math.tan(fov/2)`. An empty point
list gives `THREE.Box3`'s empty (infinite) box; no dataset reaching this
code has zero sensors, and the model leaves the camera unchanged there. -/
def autoCenterCamera (tanHalfFov : ℚ) (jointPositions : List Vec3)
    (cam : CameraState) : CameraState :=
  match jointPositions with
  | [] => cam
  | p :: ps =>
    let lo := ps.foldl vmin p
    let hi := ps.foldl vmax p
    let center : Vec3 := ⟨(lo.x + hi.x) / 2, (lo.y + hi.y) / 2, (lo.z + hi.z) / 2⟩
    let size : Vec3 := ⟨hi.x - lo.x, hi.y - lo.y, hi.z - lo.z⟩
    let maxDim := max size.x (max size.y size.z)
    let distance := maxDim * SCALE_FACTOR / (2 * tanHalfFov) * (9 / 5)
    { position := ⟨center.x + distance * (4 / 5), center.y + distance * (3 / 5),
                   center.z + distance * (4 / 5)⟩,
      target := center }

/-- The camera-framing portion of `updateSkeleton(frameIndex)`:
`if (frameIndex === 0 && controlsRef.current && !scene['__hasAutoCentered'])`
frame the camera and set the flag, else leave everything alone. -/
def updateSkeletonCamera (tanHalfFov : ℚ) (controlsPresent : Bool)
    (jointPositions : List Vec3) (frameIndex : ℕ) (s : RenderState) : RenderState :=
  if frameIndex = 0 ∧ controlsPresent ∧ ¬s.hasAutoCentered then
    { hasAutoCentered := true,
      camera := autoCenterCamera tanHalfFov jointPositions s.camera }
  else s

/-- The end of the skeleton-creation effect for a new dataset:
`scene['__hasAutoCentered'] = false` followed by `updateSkeleton(0)`. -/
def loadDataset (tanHalfFov : ℚ) (controlsPresent : Bool)
    (jointPositions : List Vec3) (s : RenderState) : RenderState :=
  updateSkeletonCamera tanHalfFov controlsPresent jointPositions 0
    { s with hasAutoCentered := false }

/-! ## Vector-channel glyph lengths (`updateSkeleton`, lines 329-360) -/

/-- Gyroscope arrow length: `Math.max(dir.length() * 0.1, 0.05)`,
as a function of the sampled vector's magnitude. -/
def gyroGlyphLen (mag : ℚ) : ℚ := max (mag * (1 / 10)) (1 / 20)

/-- Accelerometer arrow length: `Math.max(dir.length() * 0.01, 0.03)`. -/
def accelGlyphLen (mag : ℚ) : ℚ := max (mag * (1 / 100)) (3 / 100)

/-- Magnetometer arrow length: `Math.max(dir.length() * 0.001, 0.02)`. -/
def magGlyphLen (mag : ℚ) : ℚ := max (mag * (1 / 1000)) (1 / 50)

/-! ## Skeleton constants and structure validation
(`src/lib/skeleton-constants.ts`) -/

/-- `SENSOR_NAMES`: the canonical 15-sensor schema. -/
def SENSOR_NAMES : List String :=
  ["head", "sternum", "upper_arm_left", "upper_arm_right", "lumbar",
   "wrist_left", "wrist_right", "hand_left", "hand_right",
   "upper_leg_left", "upper_leg_right", "lower_leg_left", "lower_leg_right",
   "foot_left", "foot_right"]

/-- `EDGES`: the canonical skeleton connectivity. -/
def EDGES : List (String × String) :=
  [("head", "sternum"), ("sternum", "lumbar"),
   ("sternum", "upper_arm_left"), ("sternum", "upper_arm_right"),
   ("upper_arm_left", "wrist_left"), ("wrist_left", "hand_left"),
   ("upper_arm_right", "wrist_right"), ("wrist_right", "hand_right"),
   ("lumbar", "upper_leg_left"), ("lumbar", "upper_leg_right"),
   ("upper_leg_left", "lower_leg_left"), ("lower_leg_left", "foot_left"),
   ("upper_leg_right", "lower_leg_right"), ("lower_leg_right", "foot_right")]

/-- `validateSkeletonStructure(data)`: the canonical sensors absent from
`data.sensorNames`, the canonical edges absent (in either orientation) from
`data.edges`, and the combined validity flag. Returned as
`(isValid, missingSensors, missingEdges)`. -/
def validateSkeletonStructure (sensorNames : List String)
    (edges : List (String × String)) :
    Bool × List String × List (String × String) :=
  let missingSensors := SENSOR_NAMES.filter (fun name => ¬sensorNames.contains name)
  let missingEdges := EDGES.filter (fun e =>
    ¬edges.any (fun f => (f.1 = e.1 ∧ f.2 = e.2) ∨ (f.1 = e.2 ∧ f.2 = e.1)))
  (missingSensors.isEmpty && missingEdges.isEmpty, missingSensors, missingEdges)

/-- `new Map(data.sensorNames.map((n, i) => [n, i]))` lookup: the index of a
sensor name (last occurrence wins, as in a JavaScript `Map` built by
repeated `set`). -/
def nameToIdx (sensorNames : List String) (n : String) : Option ℕ :=
  ((sensorNames.enum.filter (fun p => p.2 = n)).getLast?).map (fun p => p.1)

/-- `edgeIndexPairs` (skeleton-viewer.tsx lines 151-165): map each canonical
edge to its endpoint indices in `sensorNames`, dropping edges with a missing
endpoint. -/
def edgeIndexPairs (sensorNames : List String) : List (ℕ × ℕ) :=
  EDGES.filterMap (fun e =>
    match nameToIdx sensorNames e.1, nameToIdx sensorNames e.2 with
    | some idxA, some idxB => some (idxA, idxB)
    | _, _ => none)

/-! ## Host-side calibration update (`page.tsx`, `onCalibrationChange`) -/

/-- One entry of the host calibration map,
`{ positionOffset?: [number, number, number] }`. -/
structure CalEntry where
  positionOffset : Option Vec3
deriving DecidableEq, Repr

/-- `setCalibration(prev => ({ ...prev, [joint]: { ...(prev[joint]||{}), positionOffset: offset } }))`:
the entry for `joint` keeps its other (absent in the model) fields and gets
`positionOffset := offset`; every other key of `prev` is kept as is. -/
def applyCalibrationChange (prev : List (String × CalEntry)) (joint : String)
    (offset : Vec3) : List (String × CalEntry) :=
  jsSet prev joint ⟨some offset⟩

/-! ## Helper lemmas -/

theorem advanceLoop_count (i : ℚ) (hi : 0 < i) (F : ℕ) (b : ℕ) :
    ∀ (acc : ℚ) (frame : Option ℕ),
      (advanceLoop i F acc frame b).2.2 = min (⌊acc / i⌋.toNat) b := by
  induction b with
  | zero => intro acc frame; simp [advanceLoop]
  | succ b ih =>
    intro acc frame
    by_cases h : i ≤ acc
    · simp only [advanceLoop, if_pos h]
      rw [ih]
      have hfloor1 : 1 ≤ ⌊acc / i⌋ := by
        rw [Int.le_floor]
        push_cast
        rw [le_div_iff₀ hi]
        linarith
      have hsub : ⌊(acc - i) / i⌋ = ⌊acc / i⌋ - 1 := by
        rw [sub_div, div_self (ne_of_gt hi), Int.floor_sub_one]
      rw [hsub]
      omega
    · simp only [advanceLoop, if_neg h]
      have hlt : ⌊acc / i⌋ < 1 := by
        rw [Int.floor_lt]
        push_cast
        rw [div_lt_iff₀ hi]
        linarith
      omega

theorem advanceLoop_acc (i : ℚ) (F : ℕ) (b : ℕ) :
    ∀ (acc : ℚ) (frame : Option ℕ),
      (advanceLoop i F acc frame b).1
        = acc - ((advanceLoop i F acc frame b).2.2 : ℚ) * i := by
  induction b with
  | zero => intro acc frame; simp [advanceLoop]
  | succ b ih =>
    intro acc frame
    by_cases h : i ≤ acc
    · simp only [advanceLoop, if_pos h]
      rw [ih]
      push_cast
      ring
    · simp [advanceLoop, if_neg h]

theorem jsSuccMod_some (F : ℕ) (hF : 1 ≤ F) (a : ℕ) :
    jsSuccMod (some a) F = some ((a + 1) % F) ∧ (a + 1) % F < F := by
  refine ⟨?_, Nat.mod_lt _ (by omega)⟩
  simp only [jsSuccMod]
  rw [if_neg (by omega)]

theorem advanceLoop_frame (i : ℚ) (F : ℕ) (hF : 1 ≤ F) (b : ℕ) :
    ∀ (acc : ℚ) (a : ℕ), a < F →
      ∃ a', (advanceLoop i F acc (some a) b).2.1 = some a' ∧ a' < F := by
  induction b with
  | zero => intro acc a ha; exact ⟨a, by simp [advanceLoop], ha⟩
  | succ b ih =>
    intro acc a ha
    by_cases h : i ≤ acc
    · simp only [advanceLoop, if_pos h]
      rw [(jsSuccMod_some F hF a).1]
      exact ih (acc - i) ((a + 1) % F) (jsSuccMod_some F hF a).2
    · exact ⟨a, by simp [advanceLoop, if_neg h], ha⟩

theorem tick_frameInv (cfg : ClockConfig) (hF : 1 ≤ cfg.numFrames)
    (s : ClockState) (time : ℚ) (h : frameInv cfg.numFrames s) :
    frameInv cfg.numFrames (tick cfg s time) := by
  obtain ⟨a, ha, haF⟩ := h
  unfold tick tickRun
  by_cases hsusp : ¬cfg.isPlaying ∨ cfg.isSeeking ∨ cfg.isDragging
  · rw [if_pos hsusp]
    exact ⟨a, ha, haF⟩
  · rw [if_neg hsusp]
    simp only
    rw [ha]
    obtain ⟨a', ha', ha'F⟩ :=
      advanceLoop_frame cfg.intervalMs cfg.numFrames hF cfg.maxSkip
        (s.accumulator + (time - s.lastTime)) a haF
    exact ⟨a', ha', ha'F⟩

theorem seekClamp_lt (sf : ℤ) (F : ℕ) (hF : 1 ≤ F) : seekClamp sf F < F := by
  unfold seekClamp
  rw [if_neg (by omega)]
  omega

/-! ## Claim theorems: playback clock -/

/-- Claim C1, amended. On a playing, unsuspended tick the number of
frame-advances is `min(floor(accumulated / (1000/targetFps)), maxCatchUp)`
with `maxCatchUp = 3` on Safari and `5` otherwise — but when the cap is hit
the remaining accumulated time is NOT discarded: the new accumulator is
exactly the accumulated time minus the consumed steps, so the remainder
carries into later ticks. -/
theorem C1_capped_catchup_carries (isSafari : Bool) (targetFps : ℚ)
    (htf : 0 < targetFps) (cfg : ClockConfig) (s : ClockState) (time : ℚ)
    (hint : cfg.intervalMs = 1000 / targetFps)
    (hskip : cfg.maxSkip = maxFrameSkipOf isSafari)
    (hplay : cfg.isPlaying = true) (hseek : cfg.isSeeking = false)
    (hdrag : cfg.isDragging = false) :
    (tickRun cfg s time).2
      = min (⌊(s.accumulator + (time - s.lastTime)) / cfg.intervalMs⌋.toNat)
          (maxFrameSkipOf isSafari)
    ∧ (tickRun cfg s time).1.accumulator
      = s.accumulator + (time - s.lastTime)
        - ((tickRun cfg s time).2 : ℚ) * cfg.intervalMs := by
  have hi : 0 < cfg.intervalMs := by
    rw [hint]; exact div_pos (by norm_num) htf
  unfold tickRun
  rw [if_neg (by simp [hplay, hseek, hdrag])]
  simp only
  exact ⟨by rw [advanceLoop_count _ hi, hskip], advanceLoop_acc _ _ _ _ _⟩

/-- Witness for C1 at a concrete input (non-Safari cap 5, interval 10 ms,
accumulated 100 ms). -/
theorem C1_capped_catchup_carries_witness :
    (tickRun ⟨true, false, false, 10, 5, 100⟩ ⟨0, 0, some 0⟩ 100).2
      = min (⌊((0 : ℚ) + (100 - 0)) / 10⌋.toNat) (maxFrameSkipOf false)
    ∧ (tickRun ⟨true, false, false, 10, 5, 100⟩ ⟨0, 0, some 0⟩ 100).1.accumulator
      = (0 : ℚ) + (100 - 0)
        - ((tickRun ⟨true, false, false, 10, 5, 100⟩ ⟨0, 0, some 0⟩ 100).2 : ℚ) * 10 :=
  C1_capped_catchup_carries false 100 (by norm_num)
    ⟨true, false, false, 10, 5, 100⟩ ⟨0, 0, some 0⟩ 100
    (by norm_num) rfl rfl rfl rfl

/-- Claim C1, counterexample to the claim as stated. A tick with 100 ms
accumulated at a 10 ms interval and the non-Safari cap of 5 hits the cap
(floor(100/10) = 10 > 5): the claim says the remaining accumulated time is
then discarded (reset), but the new accumulator is 50, not 0, and a
second tick with no further elapsed time advances 5 more frames off that
carried remainder. -/
theorem C1_counterexample :
    (tickRun ⟨true, false, false, 10, 5, 100⟩ ⟨0, 0, some 0⟩ 100).2
      = maxFrameSkipOf false
    ∧ (tickRun ⟨true, false, false, 10, 5, 100⟩ ⟨0, 0, some 0⟩ 100).1.accumulator = 50
    ∧ (50 : ℚ) ≠ 0
    ∧ (tickRun ⟨true, false, false, 10, 5, 100⟩
        (tickRun ⟨true, false, false, 10, 5, 100⟩ ⟨0, 0, some 0⟩ 100).1 100).2 = 5 := by
  norm_num [tickRun, advanceLoop, jsSuccMod, maxFrameSkipOf]

/-- Claim C3: for a dataset with at least one frame, any sequence of clock
ticks and seeks keeps `currentFrame` an integer in `[0, numFrames)`, and a
single frame-advance from `numFrames - 1` wraps to `0`. -/
theorem C3_frame_in_range (cfg : ClockConfig) (events : List ClockEvent)
    (s₀ : ClockState) (hF : 1 ≤ cfg.numFrames)
    (h₀ : frameInv cfg.numFrames s₀) :
    frameInv cfg.numFrames (events.foldl (applyEvent cfg) s₀)
    ∧ jsSuccMod (some (cfg.numFrames - 1)) cfg.numFrames = some 0 := by
  constructor
  · induction events generalizing s₀ with
    | nil => exact h₀
    | cons e rest ih =>
      refine ih _ ?_
      cases e with
      | tickAt t => exact tick_frameInv cfg hF s₀ t h₀
      | seek sf =>
        exact ⟨seekClamp sf cfg.numFrames, rfl, seekClamp_lt sf cfg.numFrames hF⟩
  · simp only [jsSuccMod]
    rw [if_neg (by omega), Nat.sub_add_cancel hF, Nat.mod_self]

/-- Witness for C3: three frames, a tick past one interval, a seek beyond
the end, and another tick. -/
theorem C3_frame_in_range_witness :
    frameInv 3 ([ClockEvent.tickAt 25, ClockEvent.seek 7,
        ClockEvent.tickAt 40].foldl (applyEvent ⟨true, false, false, 10, 5, 3⟩)
        ⟨0, 0, some 0⟩)
    ∧ jsSuccMod (some (3 - 1)) 3 = some 0 :=
  C3_frame_in_range ⟨true, false, false, 10, 5, 3⟩
    [ClockEvent.tickAt 25, ClockEvent.seek 7, ClockEvent.tickAt 40]
    ⟨0, 0, some 0⟩ (by norm_num) ⟨0, rfl, by norm_num⟩

/-- Claim C5: while `isSeeking` or `isDragging` is set, a tick leaves
`currentFrame` and the accumulator unchanged and advances `lastTime` to the
current time, so no backlog of elapsed real time builds up during the
suspension. -/
theorem C5_suspended_no_advance (cfg : ClockConfig) (s : ClockState)
    (time : ℚ) (h : cfg.isSeeking = true ∨ cfg.isDragging = true) :
    (tick cfg s time).currentFrame = s.currentFrame
    ∧ (tick cfg s time).accumulator = s.accumulator
    ∧ (tick cfg s time).lastTime = time := by
  unfold tick tickRun
  rw [if_pos (by rcases h with h | h <;> simp [h])]
  exact ⟨rfl, rfl, rfl⟩

/-- Witness for C5: a dragging tick 1000 ms after the last one does not move
the frame or grow the accumulator. -/
theorem C5_suspended_no_advance_witness :
    (tick ⟨true, false, true, 10, 5, 100⟩ ⟨0, 4, some 7⟩ 1000).currentFrame
      = (⟨0, 4, some 7⟩ : ClockState).currentFrame
    ∧ (tick ⟨true, false, true, 10, 5, 100⟩ ⟨0, 4, some 7⟩ 1000).accumulator
      = (⟨0, 4, some 7⟩ : ClockState).accumulator
    ∧ (tick ⟨true, false, true, 10, 5, 100⟩ ⟨0, 4, some 7⟩ 1000).lastTime = 1000 :=
  C5_suspended_no_advance ⟨true, false, true, 10, 5, 100⟩ ⟨0, 4, some 7⟩ 1000
    (Or.inr rfl)

/-- Claim C6 (exhibits the code bug): with a zero-frame dataset a playing
tick executes `(currentFrame + 1) % 0`, which in JavaScript is `NaN`
(modelled `none`), so `currentFrame` is NOT held at `0` as the spec
requires. Concretely: interval 25 ms, 100 ms elapsed. -/
theorem C6_zero_frames_nan :
    (tick ⟨true, false, false, 25, 5, 0⟩ ⟨0, 0, some 0⟩ 100).currentFrame = none
    ∧ (tick ⟨true, false, false, 25, 5, 0⟩ ⟨0, 0, some 0⟩ 100).currentFrame
      ≠ some 0 := by
  have h : (tick ⟨true, false, false, 25, 5, 0⟩ ⟨0, 0, some 0⟩ 100).currentFrame
      = none := by
    norm_num [tick, tickRun, advanceLoop, jsSuccMod]
  exact ⟨h, by rw [h]; simp⟩

/-! ## Claim theorems: drag calibration round-trip -/

/-- Claim C2: a drag movement reports
`offset = (manipulatorWorldPosition - base) / SCALE_FACTOR` where `base` is
the scaled uncalibrated source position of the joint at the current frame,
and resolving the pose with that offset committed reproduces the
manipulator's position exactly. -/
theorem C2_drag_roundtrip (frames : List (List Vec3)) (jointIdx frameIdx : ℕ)
    (p manip : Vec3)
    (hp : (frames.get? frameIdx).bind (fun f => f.get? jointIdx) = some p) :
    (handleTransformChange frames jointIdx frameIdx manip
      = ⟨(manip.x - (getBasePositionForJoint frames jointIdx frameIdx).x)
            / SCALE_FACTOR,
         (manip.y - (getBasePositionForJoint frames jointIdx frameIdx).y)
            / SCALE_FACTOR,
         (manip.z - (getBasePositionForJoint frames jointIdx frameIdx).z)
            / SCALE_FACTOR⟩)
    ∧ resolvePosition p
        (some (handleTransformChange frames jointIdx frameIdx manip)) = manip := by
  refine ⟨rfl, ?_⟩
  unfold resolvePosition handleTransformChange getBasePositionForJoint
  rw [hp]
  simp only
  cases manip with
  | mk mx my mz =>
    simp only [Vec3.mk.injEq, SCALE_FACTOR]
    norm_num

/-- Witness for C2: a single-frame, single-joint dataset with source point
(100, 200, 300) dragged to (2, 3, 4). -/
theorem C2_drag_roundtrip_witness :
    (([[(⟨100, 200, 300⟩ : Vec3)]].get? 0).bind (fun f => f.get? 0)
      = some (⟨100, 200, 300⟩ : Vec3))
    ∧ ((handleTransformChange [[⟨100, 200, 300⟩]] 0 0 ⟨2, 3, 4⟩
        = ⟨((⟨2, 3, 4⟩ : Vec3).x
              - (getBasePositionForJoint [[⟨100, 200, 300⟩]] 0 0).x) / SCALE_FACTOR,
           ((⟨2, 3, 4⟩ : Vec3).y
              - (getBasePositionForJoint [[⟨100, 200, 300⟩]] 0 0).y) / SCALE_FACTOR,
           ((⟨2, 3, 4⟩ : Vec3).z
              - (getBasePositionForJoint [[⟨100, 200, 300⟩]] 0 0).z) / SCALE_FACTOR⟩)
      ∧ resolvePosition ⟨100, 200, 300⟩
          (some (handleTransformChange [[⟨100, 200, 300⟩]] 0 0 ⟨2, 3, 4⟩))
        = ⟨2, 3, 4⟩) :=
  ⟨rfl, C2_drag_roundtrip [[⟨100, 200, 300⟩]] 0 0 ⟨100, 200, 300⟩ ⟨2, 3, 4⟩ rfl⟩

/-! ## Claim theorems: calibration import -/

theorem jsSet_of_not_mem {α : Type} (m : List (String × α)) (k : String) (v : α)
    (h : ∀ p ∈ m, p.1 ≠ k) : jsSet m k v = m ++ [(k, v)] := by
  unfold jsSet
  rw [if_neg]
  simp only [List.any_eq_true, decide_eq_true_eq, not_exists, not_and]
  exact h

theorem importEntries_go (fields : List (String × Json)) :
    ∀ acc : List (String × Vec3),
      (∀ p ∈ acc, p.1 ∉ fields.map Prod.fst) →
      (fields.map Prod.fst).Nodup →
      fields.foldl
        (fun next p =>
          match entryOffset p.2 with
          | some off => jsSet next p.1 off
          | none => next) acc
      = acc ++ fields.filterMap
          (fun p => (entryOffset p.2).map (fun o => (p.1, o))) := by
  induction fields with
  | nil => intro acc _ _; simp
  | cons hd tl ih =>
    intro acc hdisj hnd
    simp only [List.map_cons, List.nodup_cons, List.mem_cons] at hnd hdisj
    simp only [List.foldl_cons, List.filterMap_cons]
    cases hoff : entryOffset hd.2 with
    | none =>
      simp only
      exact ih acc (fun p hp => fun hmem => (hdisj p hp) (Or.inr hmem)) hnd.2
    | some off =>
      simp only
      rw [jsSet_of_not_mem acc hd.1 off
        (fun p hp => fun he => (hdisj p hp) (Or.inl he))]
      rw [ih (acc ++ [(hd.1, off)])
        (fun p hp => by
          rcases List.mem_append.mp hp with hp | hp
          · exact fun hmem => (hdisj p hp) (Or.inr hmem)
          · simp only [List.mem_singleton] at hp
            rw [hp]
            exact hnd.1)
        hnd.2]
      rw [List.append_assoc, List.singleton_append]
      rfl

/-- Claim C4: importing a calibration JSON object never fails, and the
resulting map holds exactly those entries whose `positionOffset` is a
3-element array of finite numbers; in particular the file
`{"head": {"positionOffset": [0.1, 0, -0.2]}, "ghost": "bad"}` imports to
the single entry `head ↦ (0.1, 0, -0.2)`. -/
theorem C4_import_valid_entries (fields : List (String × Json))
    (hnd : (fields.map Prod.fst).Nodup) :
    importCalibration (.obj fields)
      = some (fields.filterMap
          (fun p => (entryOffset p.2).map (fun o => (p.1, o))))
    ∧ importCalibration
        (.obj [("head", .obj [("positionOffset",
            .arr [.num (1 / 10), .num 0, .num (-(1 / 5))])]),
          ("ghost", .str "bad")])
      = some [("head", ⟨1 / 10, 0, -(1 / 5)⟩)] := by
  constructor
  · show some (importEntries fields) = _
    rw [importEntries, importEntries_go fields [] (by simp) hnd]
    rw [List.nil_append]
  · show some (importEntries _) = _
    norm_num [importEntries, entryOffset, jsGet, jsSet, validOffset]

/-- Witness for C4: the example file itself has distinct keys. -/
theorem C4_import_valid_entries_witness :
    (([("head", Json.obj [("positionOffset",
          Json.arr [.num (1 / 10), .num 0, .num (-(1 / 5))])]),
       ("ghost", Json.str "bad")].map Prod.fst).Nodup)
    ∧ (importCalibration
          (.obj [("head", .obj [("positionOffset",
              .arr [.num (1 / 10), .num 0, .num (-(1 / 5))])]),
            ("ghost", .str "bad")])
        = some ([("head", Json.obj [("positionOffset",
              Json.arr [.num (1 / 10), .num 0, .num (-(1 / 5))])]),
            ("ghost", Json.str "bad")].filterMap
              (fun p => (entryOffset p.2).map (fun o => (p.1, o))))
      ∧ importCalibration
          (.obj [("head", .obj [("positionOffset",
              .arr [.num (1 / 10), .num 0, .num (-(1 / 5))])]),
            ("ghost", .str "bad")])
        = some [("head", ⟨1 / 10, 0, -(1 / 5)⟩)]) :=
  ⟨by simp, C4_import_valid_entries _ (by simp)⟩

/-! ## Claim theorems: one-time camera framing -/

theorem updateSkeletonCamera_framed (t : ℚ) (cp : Bool) (jp : List Vec3)
    (fi : ℕ) (s : RenderState) (h : s.hasAutoCentered = true) :
    updateSkeletonCamera t cp jp fi s = s := by
  unfold updateSkeletonCamera
  rw [if_neg (by simp [h])]

theorem foldl_updateSkeletonCamera_framed (t : ℚ)
    (updates : List (List Vec3 × ℕ)) :
    ∀ s : RenderState, s.hasAutoCentered = true →
      updates.foldl (fun st u => updateSkeletonCamera t true u.1 u.2 st) s = s := by
  induction updates with
  | nil => intro s _; rfl
  | cons u rest ih =>
    intro s h
    simp only [List.foldl_cons]
    rw [updateSkeletonCamera_framed t true u.1 u.2 s h]
    exact ih s h

/-- Claim C7: once the auto-centering flag is set, no sequence of further
`updateSkeleton` calls (any frame indices, any recomputed joint positions)
changes the camera or the flag; loading a new dataset clears the flag and
the initial `updateSkeleton(0)` frames the camera exactly once, after which
further updates are again no-ops. -/
theorem C7_one_time_framing (t : ℚ) (jp : List Vec3)
    (updates : List (List Vec3 × ℕ)) (s : RenderState)
    (h : s.hasAutoCentered = true) :
    (updates.foldl (fun st u => updateSkeletonCamera t true u.1 u.2 st) s = s)
    ∧ (loadDataset t true jp s).hasAutoCentered = true
    ∧ (loadDataset t true jp s).camera = autoCenterCamera t jp s.camera
    ∧ updates.foldl (fun st u => updateSkeletonCamera t true u.1 u.2 st)
        (loadDataset t true jp s)
      = loadDataset t true jp s := by
  have hload : loadDataset t true jp s
      = ⟨true, autoCenterCamera t jp s.camera⟩ := by
    unfold loadDataset updateSkeletonCamera
    rw [if_pos (by simp)]
  refine ⟨foldl_updateSkeletonCamera_framed t updates s h, ?_, ?_, ?_⟩
  · rw [hload]
  · rw [hload]
  · exact foldl_updateSkeletonCamera_framed t updates _ (by rw [hload])

/-- Witness for C7: an already-framed state, a reload with one joint, and
two later updates at frames 3 and 0. -/
theorem C7_one_time_framing_witness :
    (([([⟨5, 5, 5⟩], 3), ([ ], 0)] : List (List Vec3 × ℕ)).foldl
        (fun st u => updateSkeletonCamera 1 true u.1 u.2 st)
        (⟨true, ⟨⟨0, 0, 0⟩, ⟨0, 0, 0⟩⟩⟩ : RenderState)
      = (⟨true, ⟨⟨0, 0, 0⟩, ⟨0, 0, 0⟩⟩⟩ : RenderState))
    ∧ (loadDataset 1 true [⟨0, 1, 2⟩]
        (⟨true, ⟨⟨0, 0, 0⟩, ⟨0, 0, 0⟩⟩⟩ : RenderState)).hasAutoCentered = true
    ∧ (loadDataset 1 true [⟨0, 1, 2⟩]
        (⟨true, ⟨⟨0, 0, 0⟩, ⟨0, 0, 0⟩⟩⟩ : RenderState)).camera
      = autoCenterCamera 1 [⟨0, 1, 2⟩]
          (⟨true, ⟨⟨0, 0, 0⟩, ⟨0, 0, 0⟩⟩⟩ : RenderState).camera
    ∧ ([([⟨5, 5, 5⟩], 3), ([ ], 0)] : List (List Vec3 × ℕ)).foldl
        (fun st u => updateSkeletonCamera 1 true u.1 u.2 st)
        (loadDataset 1 true [⟨0, 1, 2⟩]
          (⟨true, ⟨⟨0, 0, 0⟩, ⟨0, 0, 0⟩⟩⟩ : RenderState))
      = loadDataset 1 true [⟨0, 1, 2⟩]
          (⟨true, ⟨⟨0, 0, 0⟩, ⟨0, 0, 0⟩⟩⟩ : RenderState) :=
  C7_one_time_framing 1 [⟨0, 1, 2⟩] [([⟨5, 5, 5⟩], 3), ([ ], 0)]
    ⟨true, ⟨⟨0, 0, 0⟩, ⟨0, 0, 0⟩⟩⟩ rfl

/-! ## Claim theorems: vector glyph lengths -/

/-- Claim C8, counterexample to the claim as stated: the gyroscope glyph
length `max(magnitude * 0.1, 0.05)` has no upper cap — no bound majorizes
it over all magnitudes, so the lengths are floored but not "capped above". -/
theorem C8_counterexample :
    ¬∃ cap : ℚ, ∀ m : ℚ, 0 ≤ m → gyroGlyphLen m ≤ cap := by
  rintro ⟨cap, h⟩
  have hm0 : (0 : ℚ) ≤ max cap 0 := le_max_right cap 0
  have h1 := h (10 * max cap 0 + 10) (by linarith)
  have hge : (10 * max cap 0 + 10) * (1 / 10)
      ≤ gyroGlyphLen (10 * max cap 0 + 10) := by
    unfold gyroGlyphLen
    exact le_max_left _ _
  have hc : cap ≤ max cap 0 := le_max_left cap 0
  nlinarith

/-- Claim C8, amended: each vector-channel glyph length is a monotone
nondecreasing function of the sampled vector's magnitude, floored at the
per-channel minimum visible length (0.05 / 0.03 / 0.02); there is no upper
cap. -/
theorem C8_glyph_monotone_floored (m₁ m₂ : ℚ) (h : m₁ ≤ m₂) :
    (gyroGlyphLen m₁ ≤ gyroGlyphLen m₂
      ∧ accelGlyphLen m₁ ≤ accelGlyphLen m₂
      ∧ magGlyphLen m₁ ≤ magGlyphLen m₂)
    ∧ (1 / 20 ≤ gyroGlyphLen m₁ ∧ 3 / 100 ≤ accelGlyphLen m₁
      ∧ 1 / 50 ≤ magGlyphLen m₁) := by
  unfold gyroGlyphLen accelGlyphLen magGlyphLen
  refine ⟨⟨?_, ?_, ?_⟩, le_max_right _ _, le_max_right _ _, le_max_right _ _⟩
  all_goals
    exact max_le_max (mul_le_mul_of_nonneg_right h (by norm_num)) le_rfl

/-- Witness for C8 at magnitudes 0 and 7. -/
theorem C8_glyph_monotone_floored_witness :
    ((gyroGlyphLen 0 ≤ gyroGlyphLen 7 ∧ accelGlyphLen 0 ≤ accelGlyphLen 7
      ∧ magGlyphLen 0 ≤ magGlyphLen 7)
    ∧ (1 / 20 ≤ gyroGlyphLen 0 ∧ 3 / 100 ≤ accelGlyphLen 0
      ∧ 1 / 50 ≤ magGlyphLen 0)) :=
  C8_glyph_monotone_floored 0 7 (by norm_num)

/-! ## Claim theorems: structure validation with a missing sensor -/

/-- Claim C9: for a dataset whose sensor list omits exactly `foot_right`
(and whose edge list omits the edges touching it), validation reports
`missingSensors = ["foot_right"]`, `foot_right` has no index, and the
computed edge index pairs are exactly the 13 canonical edges whose both
endpoints are present — the edge to `foot_right` is dropped, all others are
retained. -/
theorem C9_missing_foot_right :
    (validateSkeletonStructure (SENSOR_NAMES.filter (fun n => n ≠ "foot_right"))
        (EDGES.filter (fun e => e.1 ≠ "foot_right" ∧ e.2 ≠ "foot_right"))).2.1
      = ["foot_right"]
    ∧ nameToIdx (SENSOR_NAMES.filter (fun n => n ≠ "foot_right")) "foot_right"
      = none
    ∧ edgeIndexPairs (SENSOR_NAMES.filter (fun n => n ≠ "foot_right"))
      = [(0, 1), (1, 4), (1, 2), (1, 3), (2, 5), (5, 7), (3, 6), (6, 8),
         (4, 9), (4, 10), (9, 11), (11, 13), (10, 12)] := by
  refine ⟨by decide, by decide, by decide⟩

/-! ## Claim theorems: host calibration update is local to one joint -/

theorem filter_key_map_other {α : Type} (joint k : String) (v : α)
    (hk : k ≠ joint) :
    ∀ m : List (String × α),
      ((m.map (fun p => if p.1 = joint then (joint, v) else p)).filter
          (fun p => p.1 = k))
        = m.filter (fun p => p.1 = k) := by
  intro m
  induction m with
  | nil => rfl
  | cons p rest ih =>
    simp only [List.map_cons, List.filter_cons]
    by_cases hp : p.1 = joint
    · rw [if_pos hp]
      have h1 : (decide ((joint, v).1 = k)) = false := by
        simp only [decide_eq_false_iff_not]
        exact Ne.symm hk
      have h2 : (decide (p.1 = k)) = false := by
        rw [hp]
        simp only [decide_eq_false_iff_not]
        exact Ne.symm hk
      rw [h1, h2]
      exact ih
    · rw [if_neg hp]
      cases hdk : (decide (p.1 = k)) with
      | true => rw [ih]
      | false => exact ih

theorem filter_key_map_self {α : Type} (joint : String) (v : α) :
    ∀ m : List (String × α),
      ((m.map (fun p => if p.1 = joint then (joint, v) else p)).filter
          (fun p => p.1 = joint))
        = (m.filter (fun p => p.1 = joint)).map (fun _ => (joint, v)) := by
  intro m
  induction m with
  | nil => rfl
  | cons p rest ih =>
    simp only [List.map_cons, List.filter_cons]
    by_cases hp : p.1 = joint
    · rw [if_pos hp]
      have h1 : (decide ((joint, v).1 = joint)) = true := by simp
      have h2 : (decide (p.1 = joint)) = true := by simp [hp]
      rw [h1, h2, ih]
      simp
    · rw [if_neg hp]
      have h2 : (decide (p.1 = joint)) = false := by simp [hp]
      rw [h2]
      exact ih

theorem jsGet_jsSet_other {α : Type} (m : List (String × α)) (joint k : String)
    (v : α) (hk : k ≠ joint) : jsGet (jsSet m joint v) k = jsGet m k := by
  unfold jsGet jsSet
  by_cases hany : m.any (fun p => p.1 = joint) = true
  · rw [if_pos hany, filter_key_map_other joint k v hk m]
  · rw [if_neg hany, List.filter_append]
    have hsingle : ([(joint, v)].filter (fun p => decide (p.1 = k))) = [] := by
      simp [Ne.symm hk]
    rw [hsingle, List.append_nil]

theorem jsGet_jsSet_same {α : Type} (m : List (String × α)) (joint : String)
    (v : α) : jsGet (jsSet m joint v) joint = some v := by
  unfold jsGet jsSet
  by_cases hany : m.any (fun p => p.1 = joint) = true
  · rw [if_pos hany, filter_key_map_self joint v m, List.getLast?_map]
    obtain ⟨p, hp, hkey⟩ := List.any_eq_true.mp hany
    have hne : m.filter (fun p => decide (p.1 = joint)) ≠ [] := by
      intro hnil
      have hmem : p ∈ m.filter (fun p => decide (p.1 = joint)) :=
        List.mem_filter.mpr ⟨hp, hkey⟩
      rw [hnil] at hmem
      exact List.not_mem_nil p hmem
    obtain ⟨q, hq⟩ := Option.isSome_iff_exists.mp
      (List.getLast?_isSome.mpr hne)
    rw [hq]
    rfl
  · rw [if_neg hany, List.filter_append]
    have hm : (m.filter (fun p => decide (p.1 = joint))) = [] := by
      rw [List.filter_eq_nil_iff]
      intro p hp hkey
      exact hany (List.any_eq_true.mpr ⟨p, hp, hkey⟩)
    rw [hm, List.nil_append]
    simp

/-- Claim C10: committing a drag's calibration change for one joint sets
that joint's `positionOffset` and leaves every other joint's entry in the
calibration map exactly as it was. -/
theorem C10_calibration_update_local (prev : List (String × CalEntry))
    (joint : String) (off : Vec3) (k : String) (hk : k ≠ joint) :
    jsGet (applyCalibrationChange prev joint off) k = jsGet prev k
    ∧ jsGet (applyCalibrationChange prev joint off) joint = some ⟨some off⟩ :=
  ⟨jsGet_jsSet_other prev joint k ⟨some off⟩ hk,
   jsGet_jsSet_same prev joint ⟨some off⟩⟩

/-- Witness for C10: dragging `lumbar` leaves the `head` entry untouched. -/
theorem C10_calibration_update_local_witness :
    jsGet (applyCalibrationChange
        [("head", ⟨some ⟨1, 2, 3⟩⟩), ("lumbar", ⟨none⟩)] "lumbar" ⟨5, 0, 0⟩)
        "head"
      = jsGet [("head", (⟨some ⟨1, 2, 3⟩⟩ : CalEntry)), ("lumbar", ⟨none⟩)] "head"
    ∧ jsGet (applyCalibrationChange
        [("head", ⟨some ⟨1, 2, 3⟩⟩), ("lumbar", ⟨none⟩)] "lumbar" ⟨5, 0, 0⟩)
        "lumbar"
      = some ⟨some ⟨5, 0, 0⟩⟩ :=
  C10_calibration_update_local [("head", ⟨some ⟨1, 2, 3⟩⟩), ("lumbar", ⟨none⟩)]
    "lumbar" ⟨5, 0, 0⟩ "head" (by decide)

end SkeletonViewer
